import Mathlib

/-!
Shallow embedding of the node-session / request-orchestration layer of the
beet_api repository (src/lib/api.ts and the HTTP route handlers).

External collaborators (the `bts-buntime` Apis object, the node-state helpers
`getCurrentNode` / `changeURL` from src/lib/states, and the network itself) are
modelled as oracles: an environment record supplies the outcome of every
external call, and each orchestration function is translated into a pure Lean
function from that environment to a run record.  The run record captures the
observable behaviour of the promise-based control flow: the settled outcome of
the returned promise (with first-settle-wins semantics, `none` meaning the
promise never settles), the RPC calls issued in order, the number of
`Apis.close()` calls, and the number of `changeURL` (endpoint-rotation) calls.
-/

/-- Settle-once promise semantics: `resolve` / `reject` after the promise has
already settled are no-ops, so the first settlement wins. -/
def settle {α : Type} (cur : Option (Except String α)) (r : Except String α) :
    Option (Except String α) :=
  match cur with
  | none => some r
  | some x => some x

/-- Embedding of `_sliceIntoChunks` (src/lib/api.ts lines 115-122), written
with an explicit fuel argument (the list length) so that it is structural and
evaluates by `rfl`.  Each step takes `arr.slice(i, i + size)` — i.e. the head
plus `size - 1` further elements — and advances by `size`.  The source's
`for` loop never terminates when `size = 0`; the only call site uses
`size = 50`, and every theorem below is stated for a positive size. -/
def sliceIntoChunksF {α : Type} (size : Nat) : Nat → List α → List (List α)
  | _, [] => []
  | 0, _ :: _ => []
  | fuel + 1, a :: rest =>
      (a :: rest.take (size - 1)) :: sliceIntoChunksF size fuel (rest.drop (size - 1))

/-- Top-level wrapper `_sliceIntoChunks(arr, size)`: split `arr` into consecutive chunks of at
most `size` elements, preserving order. -/
def sliceIntoChunks {α : Type} (size : Nat) (arr : List α) : List (List α) :=
  sliceIntoChunksF size arr.length arr

lemma sliceIntoChunksF_fuel_irrel {α : Type} (size : Nat) :
    ∀ (n fuel1 fuel2 : Nat) (l : List α), l.length = n →
      l.length ≤ fuel1 → l.length ≤ fuel2 →
      sliceIntoChunksF size fuel1 l = sliceIntoChunksF size fuel2 l := by
  intro n
  induction n using Nat.strong_induction_on with
  | _ n ih =>
      intro fuel1 fuel2 l hn h1 h2
      cases l with
      | nil => cases fuel1 <;> cases fuel2 <;> rfl
      | cons a rest =>
          simp only [List.length_cons] at hn h1 h2
          cases fuel1 with
          | zero => omega
          | succ f1 =>
              cases fuel2 with
              | zero => omega
              | succ f2 =>
                  simp only [sliceIntoChunksF]
                  congr 1
                  have hd := List.length_drop (size - 1) rest
                  exact ih (rest.drop (size - 1)).length (by omega) f1 f2 _ rfl
                    (by omega) (by omega)

/-- Unfolding equation for `sliceIntoChunks` on a nonempty list. -/
lemma sliceIntoChunks_cons {α : Type} (size : Nat) (a : α) (rest : List α) :
    sliceIntoChunks size (a :: rest) =
      (a :: rest.take (size - 1)) :: sliceIntoChunks size (rest.drop (size - 1)) := by
  unfold sliceIntoChunks
  simp only [List.length_cons, sliceIntoChunksF]
  congr 1
  have := List.length_drop (size - 1) rest
  exact sliceIntoChunksF_fuel_irrel size (rest.drop (size - 1)).length _ _ _ rfl
    (by omega) (by omega)

@[simp] lemma sliceIntoChunks_nil {α : Type} (size : Nat) :
    sliceIntoChunks size ([] : List α) = [] := rfl

/-- Concatenating the chunks recovers the input list: chunking is consecutive
and order-preserving. -/
lemma sliceIntoChunks_flatten {α : Type} (size : Nat) (l : List α) :
    (sliceIntoChunks size l).flatten = l := by
  generalize hn : l.length = n
  induction n using Nat.strong_induction_on generalizing l with
  | _ n ih =>
      cases l with
      | nil => simp
      | cons a rest =>
          rw [sliceIntoChunks_cons]
          have hlt : (rest.drop (size - 1)).length < n := by
            have := List.length_drop (size - 1) rest
            simp only [List.length_cons] at hn
            omega
          rw [List.flatten_cons, ih _ hlt _ rfl]
          simp

/-- Every chunk has at most `size` elements (for positive `size`). -/
lemma sliceIntoChunks_length_le {α : Type} (size : Nat) (hs : 0 < size)
    (l : List α) : ∀ c ∈ sliceIntoChunks size l, c.length ≤ size := by
  generalize hn : l.length = n
  induction n using Nat.strong_induction_on generalizing l with
  | _ n ih =>
      cases l with
      | nil => simp
      | cons a rest =>
          rw [sliceIntoChunks_cons]
          intro c hc
          rcases List.mem_cons.mp hc with h | h
          · subst h
            have : (rest.take (size - 1)).length ≤ size - 1 := by
              simp [List.length_take]
            simp only [List.length_cons]
            omega
          · have hlt : (rest.drop (size - 1)).length < n := by
              have := List.length_drop (size - 1) rest
              simp only [List.length_cons] at hn
              omega
            exact ih _ hlt _ rfl c h

/-! ## Batch object fetch: `getObjects` (src/lib/api.ts lines 131-179) -/

/-- Oracle environment for `getObjects`.  `nodeList` is the chain's statically
configured node list (`chains[chain].nodeList`, URLs only); `currentNode` is
the value `getCurrentNode(chain, app)` returns when `app` is supplied;
`connect` is the outcome of `Apis.instance(node, ...).init_promise`;
`execChunk c` is the outcome of
`Apis.instance().db_api().exec("get_objects", [c, false])`, a list whose
entries are `none` for IDs the node resolved to `null`. -/
structure GetObjectsEnv (Id Obj : Type) where
  nodeList : List String
  currentNode : String
  connect : Except String Unit
  execChunk : List Id → Except String (List (Option Obj))

/-- Observable behaviour of one `getObjects` run. -/
structure GetObjectsRun (Id Obj : Type) where
  node : String
  outcome : Option (Except String (List Obj))
  rpcCalls : List (List Id × Bool)
  closes : Nat
  changeURLCalls : Nat

/-- The chunk loop of `getObjects` (lines 153-168): one `get_objects` RPC per
chunk with the non-recursive flag `false`; a chunk whose call throws is
skipped (`continue`); a successful chunk contributes its non-null entries,
appended in chunk order.  Returns (merged objects, issued calls). -/
def processChunks {Id Obj : Type} (env : GetObjectsEnv Id Obj) :
    List (List Id) → List Obj × List (List Id × Bool)
  | [] => ([], [])
  | c :: cs =>
      let rest := processChunks env cs
      match env.execChunk c with
      | .error _ => (rest.1, (c, false) :: rest.2)
      | .ok got =>
          ((if got.length = 0 then [] else got.filterMap id) ++ rest.1,
            (c, false) :: rest.2)

/-- Embedding of `getObjects(chain, object_ids, app?)`.  Node selection:
`app ? getCurrentNode(chain, app) : chains[chain].nodeList[0].url`.  On
connect failure the code closes, rotates only when `app` is supplied
(`changeURL`), and rejects.  Otherwise it runs the chunk loop, closes, and
resolves the merged list when nonempty, rejecting
`"Couldn't retrieve objects"` when it is empty. -/
def getObjects {Id Obj : Type} (env : GetObjectsEnv Id Obj)
    (object_ids : List Id) (app : Bool) : GetObjectsRun Id Obj :=
  let node := if app then env.currentNode else env.nodeList.headD ""
  match env.connect with
  | .error e =>
      { node, outcome := some (.error e), rpcCalls := [], closes := 1,
        changeURLCalls := if app then 1 else 0 }
  | .ok _ =>
      let chunks := sliceIntoChunks 50 object_ids
      let res := processChunks env chunks
      { node,
        outcome :=
          if res.1.length = 0 then some (.error "Couldn't retrieve objects")
          else some (.ok res.1),
        rpcCalls := res.2, closes := 1, changeURLCalls := 0 }

/-- The loop issues exactly one call per chunk, in chunk order, each with the
non-recursive flag `false` — regardless of which chunks fail. -/
lemma processChunks_calls {Id Obj : Type} (env : GetObjectsEnv Id Obj) :
    ∀ chunks : List (List Id),
      (processChunks env chunks).2 = chunks.map (fun c => (c, false)) := by
  intro chunks
  induction chunks with
  | nil => rfl
  | cons c cs ih =>
      simp only [processChunks]
      cases env.execChunk c <;> simp [ih]

/-- When every chunk's RPC succeeds and resolves each ID through `f`, the
merged result is the input IDs resolved through `f` with nulls filtered out,
in input order. -/
lemma processChunks_all_ok {Id Obj : Type} (env : GetObjectsEnv Id Obj)
    (f : Id → Option Obj)
    (hf : ∀ c : List Id, env.execChunk c = .ok (c.map f)) :
    ∀ chunks : List (List Id),
      (processChunks env chunks).1 = chunks.flatten.filterMap f := by
  intro chunks
  induction chunks with
  | nil => rfl
  | cons c cs ih =>
      simp only [processChunks, hf c]
      have hstep :
          (if (c.map f).length = 0 then ([] : List Obj)
           else (c.map f).filterMap id) = c.filterMap f := by
        cases c with
        | nil => simp
        | cons a as =>
            have hne : ((a :: as).map f).length ≠ 0 := by simp
            rw [if_neg hne, List.filterMap_map, Function.id_comp]
      rw [hstep, List.flatten_cons, List.filterMap_append, ih]

/-- C3: for every input ID list, `getObjects` splits the list into consecutive
chunks of at most 50 elements preserving input order and issues exactly one
RPC call per chunk with the non-recursive lookup flag `false`; a list of 120
unique IDs yields exactly 3 chunked calls of sizes 50, 50 and 20, and the
merged result preserves input order. -/
theorem getObjects_chunking {Id Obj : Type} (env : GetObjectsEnv Id Obj)
    (ids : List Id) (app : Bool) (hc : env.connect = .ok ()) :
    (getObjects env ids app).rpcCalls =
        (sliceIntoChunks 50 ids).map (fun c => (c, false))
    ∧ (sliceIntoChunks 50 ids).flatten = ids
    ∧ (∀ c ∈ sliceIntoChunks 50 ids, c.length ≤ 50)
    ∧ (sliceIntoChunks 50 (List.range 120)).map List.length = [50, 50, 20]
    ∧ ∀ f : Id → Option Obj,
        (∀ c : List Id, env.execChunk c = .ok (c.map f)) →
        ids.filterMap f ≠ [] →
        (getObjects env ids app).outcome = some (.ok (ids.filterMap f)) := by
  refine ⟨?_, sliceIntoChunks_flatten 50 ids,
    sliceIntoChunks_length_le 50 (by norm_num) ids, by decide, ?_⟩
  · simp only [getObjects, hc]
    exact processChunks_calls env _
  · intro f hf hne
    simp only [getObjects, hc]
    rw [processChunks_all_ok env f hf, sliceIntoChunks_flatten]
    have : (ids.filterMap f).length ≠ 0 := by
      simpa [List.length_eq_zero] using hne
    simp [this]

/-- Witness for `getObjects_chunking` at a concrete environment and ID list. -/
def envC3 : GetObjectsEnv Nat Nat :=
  { nodeList := ["wss://node-a"], currentNode := "wss://node-a",
    connect := .ok (), execChunk := fun c => .ok (c.map some) }

theorem getObjects_chunking_witness :
    (getObjects envC3 [1, 2, 3] false).rpcCalls = [([1, 2, 3], false)]
    ∧ (getObjects envC3 [1, 2, 3] false).outcome = some (.ok [1, 2, 3]) := by
  have h := getObjects_chunking envC3 [1, 2, 3] false rfl
  refine ⟨by rw [h.1]; rfl, ?_⟩
  have h5 := h.2.2.2.2 some (fun c => rfl) (by decide)
  simpa using h5

/-- C4: in `getObjects`, a chunk whose RPC call fails contributes nothing to
the merged result and processing continues with the next chunk (every chunk
is still called); the call as a whole rejects with
`"Couldn't retrieve objects"` exactly when the merged sequence is empty, and
any nonempty partial result resolves as success. -/
theorem getObjects_chunk_failure_tolerance {Id Obj : Type}
    (env : GetObjectsEnv Id Obj) (ids : List Id) (app : Bool)
    (hc : env.connect = .ok ()) :
    (∀ (c : List Id) (cs : List (List Id)) (e : String),
        env.execChunk c = .error e →
        processChunks env (c :: cs) =
          ((processChunks env cs).1, (c, false) :: (processChunks env cs).2))
    ∧ (getObjects env ids app).rpcCalls =
        (sliceIntoChunks 50 ids).map (fun c => (c, false))
    ∧ ((getObjects env ids app).outcome =
          some (.error "Couldn't retrieve objects") ↔
        (processChunks env (sliceIntoChunks 50 ids)).1 = [])
    ∧ ((processChunks env (sliceIntoChunks 50 ids)).1 ≠ [] →
        (getObjects env ids app).outcome =
          some (.ok (processChunks env (sliceIntoChunks 50 ids)).1)) := by
  refine ⟨?_, ?_, ?_, ?_⟩
  · intro c cs e he
    simp [processChunks, he]
  · simp only [getObjects, hc]
    exact processChunks_calls env _
  · simp only [getObjects, hc]
    by_cases hz : (processChunks env (sliceIntoChunks 50 ids)).1.length = 0
    · simp [hz, List.length_eq_zero.mp hz]
    · have : (processChunks env (sliceIntoChunks 50 ids)).1 ≠ [] := by
        intro h0
        exact hz (by simp [h0])
      simp [hz, this]
  · intro hne
    have hz : (processChunks env (sliceIntoChunks 50 ids)).1.length ≠ 0 := by
      simpa [List.length_eq_zero] using hne
    simp only [getObjects, hc]
    simp [hz]

/-- Witness environment: the first chunk (headed by ID 0) fails, later chunks
succeed. -/
def envC4 : GetObjectsEnv Nat Nat :=
  { nodeList := ["wss://node-a"], currentNode := "wss://node-a",
    connect := .ok (),
    execChunk := fun c =>
      if c.headD 0 = 0 then .error "boom" else .ok (c.map some) }

theorem getObjects_chunk_failure_tolerance_witness :
    (getObjects envC4 (List.range 51) false).outcome = some (.ok [50])
    ∧ processChunks envC4 [[0], [50]] =
        ((processChunks envC4 [[50]]).1, ([0], false) :: (processChunks envC4 [[50]]).2) := by
  have h := getObjects_chunk_failure_tolerance envC4 (List.range 51) false rfl
  have hm : (processChunks envC4 (sliceIntoChunks 50 (List.range 51))).1 = [50] := by
    decide
  refine ⟨?_, h.1 [0] [[50]] "boom" rfl⟩
  have h4 := h.2.2.2 (by rw [hm]; decide)
  rw [hm] at h4
  exact h4

/-- Environment where `"missing"` resolves to null and every other ID
resolves to an object. -/
def envC5 : GetObjectsEnv String String :=
  { nodeList := ["wss://node-a"], currentNode := "wss://node-a",
    connect := .ok (),
    execChunk := fun c =>
      .ok (c.map (fun s => if s = "missing" then none else some ("obj-" ++ s))) }

/-- C5: null entries returned for unknown IDs within a successful chunk are
filtered out before merging: fetching `["1.2.1", "1.2.2", "missing"]` where
`"missing"` resolves to null yields exactly the two retrieved objects, in
order, with length 2. -/
theorem getObjects_null_filtering :
    (getObjects envC5 ["1.2.1", "1.2.2", "missing"] false).outcome =
      some (.ok ["obj-1.2.1", "obj-1.2.2"])
    ∧ (["obj-1.2.1", "obj-1.2.2"] : List String).length = 2 :=
  ⟨rfl, rfl⟩

/-- C10: without the optional `app` argument, `getObjects` connects to the
first endpoint of the chain's statically configured node list, and on connect
failure it rejects immediately (no RPC issued) without rotating the endpoint
order; the `changeURL` rotation on connect failure happens only when `app`
is supplied. -/
theorem getObjects_node_selection {Id Obj : Type} (env : GetObjectsEnv Id Obj)
    (ids : List Id) :
    (∀ u rest, env.nodeList = u :: rest → (getObjects env ids false).node = u)
    ∧ (getObjects env ids true).node = env.currentNode
    ∧ (∀ e, env.connect = .error e →
        (getObjects env ids false).outcome = some (.error e)
        ∧ (getObjects env ids false).rpcCalls = []
        ∧ (getObjects env ids false).changeURLCalls = 0)
    ∧ (∀ e, env.connect = .error e →
        (getObjects env ids true).changeURLCalls = 1) := by
  refine ⟨?_, ?_, ?_, ?_⟩
  · intro u rest hu
    cases he : env.connect <;> simp [getObjects, he, hu]
  · cases he : env.connect <;> simp [getObjects, he]
  · intro e he
    simp [getObjects, he]
  · intro e he
    simp [getObjects, he]

/-- Witness: unreachable node, no `app` supplied. -/
def envC10 : GetObjectsEnv Nat Nat :=
  { nodeList := ["wss://first-node", "wss://second-node"],
    currentNode := "wss://rotated-node",
    connect := .error "ws connect timeout", execChunk := fun _ => .ok [] }

theorem getObjects_node_selection_witness :
    (getObjects envC10 [1] false).node = "wss://first-node"
    ∧ (getObjects envC10 [1] false).outcome = some (.error "ws connect timeout")
    ∧ (getObjects envC10 [1] false).changeURLCalls = 0
    ∧ (getObjects envC10 [1] true).changeURLCalls = 1 := by
  have h := getObjects_node_selection envC10 [1]
  exact ⟨h.1 "wss://first-node" ["wss://second-node"] rfl,
    (h.2.2.1 "ws connect timeout" rfl).1,
    (h.2.2.1 "ws connect timeout" rfl).2.2,
    h.2.2.2 "ws connect timeout" rfl⟩

/-! ## Aggregate composite query: `getPortfolio` (src/lib/api.ts lines 550-625) -/

/-- Oracle environment for `getPortfolio`: connect outcome, whether
`Apis.instance().db_api()` is available, and the outcomes of the two
`db_api().exec` calls (`get_limit_orders_by_account` and
`get_account_balances`; both resolve to arrays, which are truthy in JS, so a
defined value passes the final `!balances` / `!limitOrders` checks). -/
structure PortfolioEnv (A B : Type) where
  connect : Except String Unit
  hasDbApi : Bool
  execLimitOrders : Except String A
  execBalances : Except String B

/-- The merged `{ balances, limitOrders }` result object. -/
structure PortfolioResult (A B : Type) where
  balances : B
  limitOrders : A

/-- Observable behaviour of one `getPortfolio` run.  `connects` counts
`Apis.instance(node, ...)` session openings, `closes` counts `Apis.close()`
invocations, `rpcCalls` lists the issued `db_api().exec` method names in
order. -/
structure PortfolioRun (A B : Type) where
  outcome : Option (Except String (PortfolioResult A B))
  rpcCalls : List String
  connects : Nat
  closes : Nat

/-- Embedding of `getPortfolio(chain, accountID, app)`.  Faithful to the
source's control flow: the two exec `catch` blocks call `Apis.close()` and
`reject(error)` but do **not** `return`, so execution falls through to the
next call and to the unconditional `try { Apis.close() }`; `reject` /
`resolve` after the promise has settled are no-ops (`settle`). -/
def getPortfolio {A B : Type} (env : PortfolioEnv A B) : PortfolioRun A B :=
  match env.connect with
  | .error e =>
      -- connect catch: changeURL + reject, no close
      { outcome := some (.error e), rpcCalls := [], connects := 1, closes := 0 }
  | .ok _ =>
      if !env.hasDbApi then
        { outcome := some (.error "no db_api"), rpcCalls := [],
          connects := 1, closes := 1 }
      else
        let step1 : Option A × Option (Except String (PortfolioResult A B)) × Nat :=
          match env.execLimitOrders with
          | .ok v => (some v, none, 0)
          | .error e => (none, some (.error e), 1)
        let step2 : Option B × Option (Except String (PortfolioResult A B)) × Nat :=
          match env.execBalances with
          | .ok v => (some v, step1.2.1, step1.2.2)
          | .error e => (none, settle step1.2.1 (.error e), step1.2.2 + 1)
        let closes := step2.2.2 + 1
        let calls := ["get_limit_orders_by_account", "get_account_balances"]
        match step2.1 with
        | none =>
            { outcome := settle step2.2.1 (.error "Account balances not found"),
              rpcCalls := calls, connects := 1, closes }
        | some b =>
            match step1.1 with
            | none =>
                { outcome :=
                    settle step2.2.1 (.error "Account limit orders not found"),
                  rpcCalls := calls, connects := 1, closes }
            | some l =>
                { outcome := settle step2.2.1 (.ok ⟨b, l⟩),
                  rpcCalls := calls, connects := 1, closes }

/-- C6: if either of the two sub-queries of `getPortfolio` fails, the whole
composite call settles as a Failure, even when the other sub-query
succeeded; the call resolves successfully exactly when both sub-queries
succeed. -/
theorem getPortfolio_all_or_nothing {A B : Type} (env : PortfolioEnv A B)
    (hc : env.connect = .ok ()) (hdb : env.hasDbApi = true) :
    ((∃ e, env.execLimitOrders = .error e) ∨ (∃ e, env.execBalances = .error e) →
      ∃ e, (getPortfolio env).outcome = some (.error e))
    ∧ ((∃ v, (getPortfolio env).outcome = some (.ok v)) ↔
        (∃ a, env.execLimitOrders = .ok a) ∧ (∃ b, env.execBalances = .ok b)) := by
  cases hlo : env.execLimitOrders <;> cases hb : env.execBalances <;>
    simp [getPortfolio, hc, hdb, hlo, hb, settle]

/-- Witness: the balances sub-query succeeds but the limit-orders sub-query
fails, and the composite call still settles as a Failure. -/
def envC6 : PortfolioEnv (List Nat) (List Nat) :=
  { connect := .ok (), hasDbApi := true,
    execLimitOrders := .error "exec failed", execBalances := .ok [7] }

theorem getPortfolio_all_or_nothing_witness :
    ∃ e, (getPortfolio envC6).outcome = some (.error e) :=
  (getPortfolio_all_or_nothing envC6 rfl rfl).1 (Or.inl ⟨"exec failed", rfl⟩)

/-- C7 counterexample: `getPortfolio` issues `get_limit_orders_by_account`
first and `get_account_balances` second, not balances first as claimed. -/
def envC7 : PortfolioEnv (List Nat) (List Nat) :=
  { connect := .ok (), hasDbApi := true,
    execLimitOrders := .ok [1], execBalances := .ok [2] }

theorem getPortfolio_call_order_counterexample :
    (getPortfolio envC7).rpcCalls =
      ["get_limit_orders_by_account", "get_account_balances"]
    ∧ (getPortfolio envC7).rpcCalls ≠
      ["get_account_balances", "get_limit_orders_by_account"] :=
  ⟨rfl, by decide⟩

/-- C7 (amended): `getPortfolio` opens exactly one session and issues its two
RPC calls in the order open limit orders first, then balances, over that same
single session, merging both into one `{ balances, limitOrders }` result
object. -/
theorem getPortfolio_call_order {A B : Type} (env : PortfolioEnv A B)
    (hc : env.connect = .ok ()) (hdb : env.hasDbApi = true) :
    (getPortfolio env).connects = 1
    ∧ (getPortfolio env).rpcCalls =
        ["get_limit_orders_by_account", "get_account_balances"]
    ∧ ∀ a b, env.execLimitOrders = .ok a → env.execBalances = .ok b →
        (getPortfolio env).outcome = some (.ok ⟨b, a⟩) := by
  cases hlo : env.execLimitOrders <;> cases hb : env.execBalances <;>
    simp [getPortfolio, hc, hdb, hlo, hb, settle]

theorem getPortfolio_call_order_witness :
    (getPortfolio envC7).rpcCalls =
      ["get_limit_orders_by_account", "get_account_balances"]
    ∧ (getPortfolio envC7).outcome =
        some (.ok { balances := [2], limitOrders := [1] }) := by
  have h := getPortfolio_call_order envC7 rfl rfl
  exact ⟨h.2.1, h.2.2 [1] [2] rfl rfl⟩

/-! ## Account lookup: `accountSearch` (src/lib/api.ts lines 234-271) -/

/-- Oracle environment for `accountSearch`: connect outcome, db_api
availability, and the outcome of
`db_api().exec("get_accounts", [[search_string]])`. -/
structure AccountSearchEnv (Obj : Type) where
  connect : Except String Unit
  hasDbApi : Bool
  execGetAccounts : Except String (List Obj)

/-- Observable behaviour of one `accountSearch` run. -/
structure AccountSearchRun (Obj : Type) where
  outcome : Option (Except String Obj)
  closes : Nat
  changeURLCalls : Nat

/-- Embedding of `accountSearch(chain, search_string, app)`.  Faithful to the
source: the exec `catch` closes and rejects without returning, so control
falls through to the emptiness check; the not-found branch
(`!object || !object.length`) rejects `"Couldn't retrieve account"` and
returns **without** calling `Apis.close()`; only the success branch closes
before resolving `object[0]`. -/
def accountSearch {Obj : Type} (env : AccountSearchEnv Obj) :
    AccountSearchRun Obj :=
  match env.connect with
  | .error e =>
      { outcome := some (.error e), closes := 0, changeURLCalls := 1 }
  | .ok _ =>
      if !env.hasDbApi then
        { outcome := some (.error "no db_api"), closes := 1, changeURLCalls := 1 }
      else
        match env.execGetAccounts with
        | .error e =>
            -- catch: close + reject, no return; `object` stays undefined, so
            -- the not-found branch then runs `return reject(...)`, a no-op on
            -- the already-settled promise, without closing again.
            { outcome := some (.error e), closes := 1, changeURLCalls := 0 }
        | .ok [] =>
            -- not-found: reject without close
            { outcome := some (.error "Couldn't retrieve account"),
              closes := 0, changeURLCalls := 0 }
        | .ok (o :: _) =>
            { outcome := some (.ok o), closes := 1, changeURLCalls := 0 }

/-- Not-found environment for `accountSearch`: everything succeeds but the
lookup returns an empty list. -/
def envC2notFound : AccountSearchEnv Nat :=
  { connect := .ok (), hasDbApi := true, execGetAccounts := .ok [] }

/-- Found environment for `accountSearch`. -/
def envC2found : AccountSearchEnv Nat :=
  { connect := .ok (), hasDbApi := true, execGetAccounts := .ok [5] }

/-- Environment for `getPortfolio` whose balances sub-query throws. -/
def envC2balFail : PortfolioEnv (List Nat) (List Nat) :=
  { connect := .ok (), hasDbApi := true,
    execLimitOrders := .ok [1], execBalances := .error "exec failed" }

/-- C2 evidence: the session-hygiene invariant fails in the source.
`accountSearch`'s not-found exit (successful connect and lookup, empty
result) rejects while leaving the session open (`closes = 0`), and a
`getPortfolio` run whose balances sub-query fails closes the session twice
(once in the catch block and once unconditionally).  A successful
`accountSearch` does close exactly once. -/
theorem session_close_violations :
    (accountSearch envC2notFound).outcome =
      some (.error "Couldn't retrieve account")
    ∧ (accountSearch envC2notFound).closes = 0
    ∧ (getPortfolio envC2balFail).closes = 2
    ∧ (accountSearch envC2found).closes = 1 :=
  ⟨rfl, rfl, rfl, rfl⟩

/-! ## Account history: `getAccountHistory` (src/lib/api.ts lines 337-385) -/

/-- The parts of the upstream `fetch` Response that the source inspects. -/
structure HttpResponse (Doc : Type) where
  ok : Bool
  status : Nat
  statusText : String
  jsonBody : Option Doc

/-- Oracle for the single external HTTP GET: either the fetch throws or it
yields a response. -/
structure HistoryEnv (Doc : Type) where
  fetchResult : Except String (HttpResponse Doc)

/-- Observable behaviour of one `getAccountHistory` run: the settled promise
outcome (`none` = the promise never settles) and the upstream URL built from
the parameters and their defaults. -/
structure HistoryRun (Doc : Type) where
  outcome : Option (Except String Doc)
  url : String

/-- The URL template of lines 350-358, with the source's `??` defaults. -/
def historyUrl (chain accountID : String) (from_ size : Option Nat)
    (from_date to_date sort_by ty agg_field : Option String) : String :=
  "https://" ++ (if chain = "bitshares" then "api" else "api.testnet")
    ++ ".bitshares.ws/openexplorer/es/account_history"
    ++ "?account_id=" ++ accountID
    ++ "&from_=" ++ toString (from_.getD 0)
    ++ "&size=" ++ toString (size.getD 100)
    ++ "&from_date=" ++ from_date.getD "2015-10-10"
    ++ "&to_date=" ++ to_date.getD "now"
    ++ "&sort_by=" ++ sort_by.getD "-operation_id_num"
    ++ "&type=" ++ ty.getD "data"
    ++ "&agg_field=" ++ agg_field.getD "operation_type"

/-- Embedding of `getAccountHistory`.  Faithful to the source: a throwing
fetch rejects (the subsequent `!history` branch then merely logs and
returns); a response with `ok = false` hits the `!history.ok` branch, which
logs and `return`s **without settling the promise**; a null JSON body rejects
`"Account history not found"`; otherwise the history document is resolved. -/
def getAccountHistory {Doc : Type} (env : HistoryEnv Doc)
    (chain accountID : String) (from_ size : Option Nat)
    (from_date to_date sort_by ty agg_field : Option String) :
    HistoryRun Doc :=
  let url := historyUrl chain accountID from_ size from_date to_date
    sort_by ty agg_field
  match env.fetchResult with
  | .error e => { outcome := some (.error e), url }
  | .ok resp =>
      if !resp.ok then { outcome := none, url }
      else
        match resp.jsonBody with
        | none => { outcome := some (.error "Account history not found"), url }
        | some doc => { outcome := some (.ok doc), url }

/-- A non-ok upstream response (HTTP 500). -/
def envC9nonOk : HistoryEnv Nat :=
  { fetchResult := .ok
      { ok := false, status := 500, statusText := "Internal Server Error",
        jsonBody := none } }

/-- A fetch that throws at the network level. -/
def envC9throw : HistoryEnv Nat :=
  { fetchResult := .error "network unreachable" }

/-- A successful fetch. -/
def envC9okay : HistoryEnv Nat :=
  { fetchResult := .ok
      { ok := true, status := 200, statusText := "OK", jsonBody := some 42 } }

/-- C9 evidence: when the upstream history request returns a non-ok HTTP
response, `getAccountHistory` never settles its promise (the caller observes
neither resolution nor rejection — it hangs), contradicting the claim that
the failure is observable as a rejection.  A network-level throw does settle
as a rejection, and a good response resolves. -/
theorem getAccountHistory_non_ok_hangs :
    (getAccountHistory envC9nonOk "bitshares" "1.2.1" none none none none
        none none none).outcome = none
    ∧ (getAccountHistory envC9throw "bitshares" "1.2.1" none none none none
        none none none).outcome = some (.error "network unreachable")
    ∧ (getAccountHistory envC9okay "bitshares" "1.2.1" none none none none
        none none none).outcome = some (.ok 42) :=
  ⟨rfl, rfl, rfl⟩

/-! ## HTTP route chain validation (src/unnamed/part_000) -/

/-- Result of a route handler's input validation: either the handler throws a
validation error, or it proceeds into orchestration / network activity. -/
inductive RouteOutcome
  | proceeds
  | failed (msg : String)
  deriving DecidableEq

/-- Route `/api/blockedAccounts/:chain` (part_000 lines 164-179): rejects every
chain except the literal `"bitshares"` before calling
`getBlockedAccounts`. -/
def blockedAccountsRoute (chain : String) : RouteOutcome :=
  if chain ≠ "bitshares" then .failed "Invalid chain" else .proceeds

/-- Route `/cache/pools/:chain` (part_000 lines 481-493): performs no chain
validation at all and goes straight to `getPools(chain)`. -/
def poolsCacheRoute (_chain : String) : RouteOutcome :=
  .proceeds

/-- Route `/api/orderBook/:chain/:quote/:base` (part_000 lines 201-213): missing
fields are rejected first (`!chain || !base || !quote`, empty path segments
being falsy), then any chain other than the two literals is rejected before
`fetchOrderBook` runs. -/
def orderBookRoute (chain quote base : String) : RouteOutcome :=
  if chain = "" ∨ base = "" ∨ quote = "" then .failed "Missing required fields"
  else if chain ≠ "bitshares" ∧ chain ≠ "bitshares_testnet" then
    .failed "Invalid chain"
  else .proceeds

/-- C8 counterexample: the claim fails in both directions.
`/api/blockedAccounts` rejects `"bitshares_testnet"` — one of the two
literals the claim says every chain-parameterised operation accepts — and
`/cache/pools` proceeds for an arbitrary invalid chain value instead of
producing a validation failure. -/
theorem chain_validation_counterexample :
    blockedAccountsRoute "bitshares_testnet" = .failed "Invalid chain"
    ∧ poolsCacheRoute "not_a_chain" = .proceeds :=
  ⟨rfl, rfl⟩

/-- C8 (amended): the order-book route accepts exactly the two literal chain
values `"bitshares"` and `"bitshares_testnet"` (given nonempty quote/base)
and any other value fails validation before orchestration begins; but
`/api/blockedAccounts` accepts only `"bitshares"`, and the `/cache/pools`
route performs no chain validation and proceeds for every value. -/
theorem chain_validation_amended (chain quote base : String)
    (hq : quote ≠ "") (hb : base ≠ "") :
    (orderBookRoute chain quote base = .proceeds ↔
      chain = "bitshares" ∨ chain = "bitshares_testnet")
    ∧ (blockedAccountsRoute chain = .proceeds ↔ chain = "bitshares")
    ∧ poolsCacheRoute chain = .proceeds := by
  refine ⟨?_, ?_, rfl⟩
  · by_cases hc : chain = ""
    · subst hc
      simp [orderBookRoute]
    · by_cases h1 : chain = "bitshares"
      · simp [orderBookRoute, h1, hq, hb, hc]
      · by_cases h2 : chain = "bitshares_testnet"
        · simp [orderBookRoute, h2, hq, hb, hc]
        · simp [orderBookRoute, h1, h2, hq, hb, hc]
  · by_cases h1 : chain = "bitshares" <;> simp [blockedAccountsRoute, h1]

theorem chain_validation_amended_witness :
    orderBookRoute "bitshares_testnet" "1.3.0" "1.3.121" = .proceeds
    ∧ blockedAccountsRoute "bitshares" = .proceeds
    ∧ poolsCacheRoute "junk" = .proceeds := by
  have h := chain_validation_amended "bitshares_testnet" "1.3.0" "1.3.121"
    (by decide) (by decide)
  exact ⟨h.1.mpr (Or.inr rfl), by decide, by decide⟩

/-! ## Transaction orchestrator: `generateDeepLink` (src/lib/api.ts lines 17-107) -/

/-- The build steps of `generateDeepLink`, in source order: connect to the
node, append the operations to a fresh `TransactionBuilder`, fetch the head
(reference) block, compute required fees, set the expiration window, finalize
the draft, and URL-encode the signing request. -/
inductive DLStep
  | connect
  | addOps
  | headBlock
  | fees
  | expire
  | finalizeTr
  | encode
  deriving DecidableEq, Repr

/-- The fixed step order of the orchestration. -/
def dlStepOrder : List DLStep :=
  [.connect, .addOps, .headBlock, .fees, .expire, .finalizeTr, .encode]

/-- Model of the library `TransactionBuilder` state, tracking exactly what
the orchestration steps mutate: the ordered typed-operation list, whether the
reference block and fees have been populated, the expiration window in
seconds, and finalization. -/
structure TrBuilder (Op : Type) where
  operations : List (String × Op)
  refBlockSet : Bool
  feesSet : Bool
  expireSeconds : Option Nat
  finalized : Bool
  deriving DecidableEq

/-- Constructor `new TransactionBuilder()`. -/
def TrBuilder.empty {Op : Type} : TrBuilder Op :=
  { operations := [], refBlockSet := false, feesSet := false,
    expireSeconds := none, finalized := false }

/-- Method `tr.add_type_operation(opType, op)`: appends one typed operation. -/
def TrBuilder.add_type_operation {Op : Type} (tr : TrBuilder Op)
    (opType : String) (op : Op) : TrBuilder Op :=
  { tr with operations := tr.operations ++ [(opType, op)] }

/-- Method `tr.set_expire_seconds(s)`. -/
def TrBuilder.set_expire_seconds {Op : Type} (tr : TrBuilder Op) (s : Nat) :
    TrBuilder Op :=
  { tr with expireSeconds := some s }

/-- Oracle outcomes for each external / fallible call of `generateDeepLink`:
the node connect, `tr.update_head_block`, `tr.set_required_fees`, the guarded
`tr.set_expire_seconds`, `tr.finalize`, and
`encodeURIComponent(JSON.stringify(request))`; `uuid` is the freshly
generated request identifier. -/
structure DeepLinkEnv where
  connect : Except String Unit
  updateHeadBlock : Except String Unit
  setRequiredFees : Except String Unit
  setExpire : Except String Unit
  finalizeTr : Except String Unit
  encodePayload : Except String Unit
  uuid : String

/-- Which steps succeed in a given environment (`addOps` is pure list
appending and cannot fail). -/
def DeepLinkEnv.stepOk (env : DeepLinkEnv) : DLStep → Bool
  | .connect => env.connect.isOk
  | .addOps => true
  | .headBlock => env.updateHeadBlock.isOk
  | .fees => env.setRequiredFees.isOk
  | .expire => env.setExpire.isOk
  | .finalizeTr => env.finalizeTr.isOk
  | .encode => env.encodePayload.isOk

/-- The signing-request envelope of lines 77-92: a fresh identifier, the
chain tag (`"BTS"` for mainnet, `"TEST"` otherwise), the fixed application
name, and the finalized transaction as embedded payload (the code resolves
its URL-encoded JSON serialization; serialization is kept opaque here). -/
structure Envelope (Op : Type) where
  id : String
  chainTag : String
  appName : String
  payload : TrBuilder Op
  deriving DecidableEq

/-- Observable behaviour of one `generateDeepLink` run: the settled outcome,
the steps attempted in order, and the `Apis.close()` / `changeURL` counts. -/
structure DeepLinkRun (Op : Type) where
  outcome : Option (Except String (Envelope Op))
  steps : List DLStep
  closes : Nat
  changeURLCalls : Nat

/-- Embedding of `generateDeepLink(chain, opType, operations, app)`.  Each
guarded step rejects and returns on failure (closing the session for every
step after the connect, which instead rotates via `changeURL`); on full
success the request envelope is built, the session closed, and the encoded
payload resolved. -/
def generateDeepLink {Op : Type} (env : DeepLinkEnv) (chain opType : String)
    (operations : List Op) : DeepLinkRun Op :=
  match env.connect with
  | .error e =>
      { outcome := some (.error e), steps := [.connect], closes := 0,
        changeURLCalls := 1 }
  | .ok _ =>
      let tr := operations.foldl
        (fun t o => t.add_type_operation opType o) TrBuilder.empty
      match env.updateHeadBlock with
      | .error e =>
          { outcome := some (.error e),
            steps := [.connect, .addOps, .headBlock], closes := 1,
            changeURLCalls := 0 }
      | .ok _ =>
          let tr := { tr with refBlockSet := true }
          match env.setRequiredFees with
          | .error e =>
              { outcome := some (.error e),
                steps := [.connect, .addOps, .headBlock, .fees], closes := 1,
                changeURLCalls := 0 }
          | .ok _ =>
              let tr := { tr with feesSet := true }
              match env.setExpire with
              | .error e =>
                  { outcome := some (.error e),
                    steps := [.connect, .addOps, .headBlock, .fees, .expire],
                    closes := 1, changeURLCalls := 0 }
              | .ok _ =>
                  let tr := tr.set_expire_seconds 7200
                  match env.finalizeTr with
                  | .error e =>
                      { outcome := some (.error e),
                        steps := [.connect, .addOps, .headBlock, .fees,
                          .expire, .finalizeTr],
                        closes := 1, changeURLCalls := 0 }
                  | .ok _ =>
                      let tr := { tr with finalized := true }
                      let request : Envelope Op :=
                        { id := env.uuid,
                          chainTag := if chain = "bitshares" then "BTS" else "TEST",
                          appName := "Static Bitshares Astro web app",
                          payload := tr }
                      match env.encodePayload with
                      | .error e =>
                          { outcome := some (.error e), steps := dlStepOrder,
                            closes := 1, changeURLCalls := 0 }
                      | .ok _ =>
                          { outcome := some (.ok request),
                            steps := dlStepOrder, closes := 1,
                            changeURLCalls := 0 }

/-- Statement helper: the elements of `l` passing `p`, up to and including
the first element that fails `p`.  Used to say "the attempted steps are the
gated prefix of the fixed order". -/
def takeThrough {α : Type} (p : α → Bool) : List α → List α
  | [] => []
  | a :: as => if p a then a :: takeThrough p as else [a]

/-- Appending typed operations via `foldl add_type_operation` preserves input
order. -/
lemma foldl_add_type_operation {Op : Type} (opType : String)
    (ops : List Op) :
    ∀ t0 : TrBuilder Op,
      (ops.foldl (fun t o => t.add_type_operation opType o) t0).operations =
        t0.operations ++ ops.map (fun o => (opType, o)) := by
  induction ops with
  | nil => intro t0; simp
  | cons o os ih =>
      intro t0
      rw [List.foldl_cons, ih]
      simp [TrBuilder.add_type_operation]

/-- C1: `generateDeepLink` attempts its build steps strictly in the fixed
order, each gated on the previous step's success — the attempted steps are
exactly the all-successful prefix of the order plus the first failing step —
and a signing envelope is produced precisely when every step succeeds, in
which case its payload carries the input operations in input order and the
fixed 7200-second expiration window. -/
theorem generateDeepLink_step_gating {Op : Type} (env : DeepLinkEnv)
    (chain opType : String) (ops : List Op) :
    (generateDeepLink env chain opType ops).steps =
        takeThrough env.stepOk dlStepOrder
    ∧ ((∃ v, (generateDeepLink env chain opType ops).outcome = some (.ok v)) ↔
        ∀ s ∈ dlStepOrder, env.stepOk s)
    ∧ (∀ v, (generateDeepLink env chain opType ops).outcome = some (.ok v) →
        v.payload.operations = ops.map (fun o => (opType, o))
        ∧ v.payload.expireSeconds = some 7200
        ∧ v.payload.finalized = true
        ∧ v.id = env.uuid) := by
  obtain ⟨c, hb, fe, ex, fi, en, uu⟩ := env
  cases c <;> cases hb <;> cases fe <;> cases ex <;> cases fi <;> cases en <;>
    simp [generateDeepLink, dlStepOrder, takeThrough, DeepLinkEnv.stepOk,
      Except.isOk, Except.toBool, foldl_add_type_operation, TrBuilder.empty,
      TrBuilder.set_expire_seconds]

/-- All-success environment for the witness. -/
def envC1 : DeepLinkEnv :=
  { connect := .ok (), updateHeadBlock := .ok (), setRequiredFees := .ok (),
    setExpire := .ok (), finalizeTr := .ok (), encodePayload := .ok (),
    uuid := "req-0001" }

theorem generateDeepLink_step_gating_witness :
    (generateDeepLink envC1 "bitshares" "transfer"
        (["payload-a", "payload-b"] : List String)).steps = dlStepOrder
    ∧ ∃ v, (generateDeepLink envC1 "bitshares" "transfer"
        (["payload-a", "payload-b"] : List String)).outcome = some (.ok v)
        ∧ v.payload.operations =
            [("transfer", "payload-a"), ("transfer", "payload-b")]
        ∧ v.payload.expireSeconds = some 7200 := by
  have h := generateDeepLink_step_gating envC1 "bitshares" "transfer"
    (["payload-a", "payload-b"] : List String)
  obtain ⟨v, hv⟩ := h.2.1.mpr (by decide)
  refine ⟨by rw [h.1]; decide, v, hv, ?_, (h.2.2 v hv).2.1⟩
  rw [(h.2.2 v hv).1]
  rfl
